import Mathlib

/-!
Verification of the `passcheck` password validation library (src/lib.rs).

The embedding represents a Rust `&str` password as its sequence of Unicode
scalar values (`List Char`), which is what `password.chars()` iterates over.
`str::len` counts UTF-8 bytes, embedded here as `utf8Len` (the sum of each
character's UTF-8 encoding size). `Char.isUpper`, `Char.isLower` and
`Char.isDigit` in Lean core test exactly the ASCII ranges A-Z, a-z and 0-9,
matching Rust's `is_ascii_uppercase`, `is_ascii_lowercase` and
`is_ascii_digit`.
-/

namespace Passcheck

/-- The rule enum from src/lib.rs: each variant optionally carries a custom
error message. -/
inductive Rule where
  | MinLength (len : Nat) (msg : Option String)
  | RequireUpperLower (msg : Option String)
  | RequireNumber (msg : Option String)
  | RequireSpecialChar (msg : Option String)
deriving DecidableEq, Repr

/-- `PasswordChecker` holds the ordered rule sequence (a Rust `Vec<Rule>`). -/
structure PasswordChecker where
  rules : List Rule
deriving DecidableEq, Repr

/-- `PasswordChecker::new`: the empty checker. -/
def PasswordChecker.new : PasswordChecker := ⟨[]⟩

/-- `PasswordChecker::min_length`: pushes a `MinLength` rule at the end. -/
def PasswordChecker.min_length (c : PasswordChecker) (len : Nat)
    (msg : Option String) : PasswordChecker :=
  ⟨c.rules ++ [Rule.MinLength len msg]⟩

/-- `PasswordChecker::require_upper_lower`: pushes a `RequireUpperLower`
rule at the end. -/
def PasswordChecker.require_upper_lower (c : PasswordChecker)
    (msg : Option String) : PasswordChecker :=
  ⟨c.rules ++ [Rule.RequireUpperLower msg]⟩

/-- `PasswordChecker::require_number`: pushes a `RequireNumber` rule at the
end. -/
def PasswordChecker.require_number (c : PasswordChecker)
    (msg : Option String) : PasswordChecker :=
  ⟨c.rules ++ [Rule.RequireNumber msg]⟩

/-- `PasswordChecker::require_special_char`: pushes a `RequireSpecialChar`
rule at the end. -/
def PasswordChecker.require_special_char (c : PasswordChecker)
    (msg : Option String) : PasswordChecker :=
  ⟨c.rules ++ [Rule.RequireSpecialChar msg]⟩

/-- The `SPECIAL_CHARS` constant from `validate` (src/lib.rs lines 59-63):
the 30 allowed special characters, in source order. -/
def SPECIAL_CHARS : List Char :=
  ['!', '@', '#', '$', '%', '^', '&', '*', '(', ')',
   '-', '_', '=', '+', '[', ']', '\x7b', '\x7d', '\\', '|',
   ';', ':', '\'', '"', ',', '.', '<', '>', '/', '?']

/-- UTF-8 byte length of a password, i.e. Rust's `str::len` on the string
whose scalar values are `p`. -/
def utf8Len (p : List Char) : Nat :=
  (p.map Char.utf8Size).sum

/-- The default message of a violated `MinLength` rule (src/lib.rs line 70),
with the threshold interpolated. -/
def minLengthDefaultMsg (len : Nat) : String :=
  "Password must be at least " ++ toString len ++ " characters long."

/-- The body of the `for rule in &self.rules` loop of `validate`
(src/lib.rs lines 65-95): the list of messages (empty or a singleton) that
one rule appends to `errors` for the given password. -/
def ruleErrors (password : List Char) : Rule → List String
  | .MinLength len maybeMsg =>
      if utf8Len password < len then
        [maybeMsg.getD (minLengthDefaultMsg len)]
      else []
  | .RequireUpperLower maybeMsg =>
      if !(password.any Char.isUpper) || !(password.any Char.isLower) then
        [maybeMsg.getD "Password must include both uppercase and lowercase letters."]
      else []
  | .RequireNumber maybeMsg =>
      if !(password.any Char.isDigit) then
        [maybeMsg.getD "Password must include at least one number."]
      else []
  | .RequireSpecialChar maybeMsg =>
      if !(password.any (fun c => SPECIAL_CHARS.contains c)) then
        [maybeMsg.getD "Password must include at least one special character."]
      else []

/-- `PasswordChecker::validate` (src/lib.rs lines 55-102): fold the loop body
over the rule sequence, then return `Ok(())` if no errors accumulated and
`Err(errors)` otherwise. -/
def PasswordChecker.validate (c : PasswordChecker) (password : List Char) :
    Except (List String) Unit :=
  let errors := c.rules.foldl (fun errors rule => errors ++ ruleErrors password rule) []
  if errors.isEmpty then Except.ok () else Except.error errors

/-- Whether a rule's predicate rejects the password: the condition of the
`if` guarding each `errors.push` in `validate`. -/
def Rule.violated : Rule → List Char → Bool
  | .MinLength len _, p => decide (utf8Len p < len)
  | .RequireUpperLower _, p => !(p.any Char.isUpper) || !(p.any Char.isLower)
  | .RequireNumber _, p => !(p.any Char.isDigit)
  | .RequireSpecialChar _, p => !(p.any (fun c => SPECIAL_CHARS.contains c))

/-- The message a rule contributes when violated: the custom message if one
was supplied at configuration time, otherwise the default. -/
def Rule.resolvedMsg : Rule → String
  | .MinLength len m => m.getD (minLengthDefaultMsg len)
  | .RequireUpperLower m =>
      m.getD "Password must include both uppercase and lowercase letters."
  | .RequireNumber m => m.getD "Password must include at least one number."
  | .RequireSpecialChar m =>
      m.getD "Password must include at least one special character."

/-- The custom message a rule was configured with, if any. -/
def Rule.customMsg : Rule → Option String
  | .MinLength _ m => m
  | .RequireUpperLower m => m
  | .RequireNumber m => m
  | .RequireSpecialChar m => m

/-- The full ordered error list `validate` accumulates: one resolved message
per violated rule, in rule order. -/
def PasswordChecker.errorList (c : PasswordChecker) (password : List Char) :
    List String :=
  (c.rules.filter (fun r => r.violated password)).map Rule.resolvedMsg

theorem ruleErrors_eq_if (p : List Char) (r : Rule) :
    ruleErrors p r = if r.violated p then [r.resolvedMsg] else [] := by
  cases r <;> simp [ruleErrors, Rule.violated, Rule.resolvedMsg]

theorem foldl_append_eq (p : List Char) (l : List Rule) (init : List String) :
    l.foldl (fun errors rule => errors ++ ruleErrors p rule) init
      = init ++ (l.map (ruleErrors p)).flatten := by
  induction l generalizing init with
  | nil => simp
  | cons r l ih => simp [List.foldl_cons, ih, List.append_assoc]

theorem join_map_ruleErrors (p : List Char) (l : List Rule) :
    (l.map (ruleErrors p)).flatten
      = (l.filter (fun r => r.violated p)).map Rule.resolvedMsg := by
  induction l with
  | nil => simp
  | cons r l ih =>
      by_cases h : r.violated p = true <;>
        simp [ruleErrors_eq_if, h, List.filter_cons, ih]

theorem validate_eq (c : PasswordChecker) (p : List Char) :
    c.validate p =
      if (c.errorList p).isEmpty then Except.ok ()
      else Except.error (c.errorList p) := by
  unfold PasswordChecker.validate PasswordChecker.errorList
  rw [foldl_append_eq, List.nil_append, join_map_ruleErrors]

theorem validate_error_iff (c : PasswordChecker) (p : List Char)
    (msgs : List String) :
    c.validate p = Except.error msgs ↔
      msgs = c.errorList p ∧ c.errorList p ≠ [] := by
  rw [validate_eq]
  by_cases h : (c.errorList p).isEmpty
  · have h2 := List.isEmpty_iff.mp h
    rw [if_pos h]
    simp [h2]
  · have h2 : c.errorList p ≠ [] := by simpa [List.isEmpty_iff] using h
    rw [if_neg h]
    constructor
    · intro he
      exact ⟨(Except.error.inj he).symm, h2⟩
    · intro he
      rw [he.1]

theorem validate_ok_iff (c : PasswordChecker) (p : List Char) :
    c.validate p = Except.ok () ↔ c.errorList p = [] := by
  rw [validate_eq]
  by_cases h : (c.errorList p).isEmpty
  · have h2 := List.isEmpty_iff.mp h
    rw [if_pos h]
    simp [h2]
  · have h2 : c.errorList p ≠ [] := by simpa [List.isEmpty_iff] using h
    rw [if_neg h]
    simp [h2]

/-- Claim C1: for every configured checker and every input, if `validate`
returns `Err(msgs)` then `msgs` has exactly one message per violated rule:
its length equals the number of configured rules whose predicate rejects the
input, so every rule is evaluated (no short-circuit) and each violated rule
contributes exactly one message. -/
theorem C1_failure_message_count (c : PasswordChecker) (p : List Char)
    (msgs : List String) (h : c.validate p = Except.error msgs) :
    msgs.length = (c.rules.filter (fun r => r.violated p)).length := by
  have he := ((validate_error_iff c p msgs).mp h).1
  rw [he, PasswordChecker.errorList, List.length_map]

/-- Witness for C1 at a concrete checker and input: `"abc"` violates both
rules of a `MinLength(8)` + `RequireNumber` checker, and the failure list
has exactly 2 entries. -/
theorem C1_witness :
    (["Password must be at least 8 characters long.",
      "Password must include at least one number."] : List String).length
      = ((PasswordChecker.mk [Rule.MinLength 8 none, Rule.RequireNumber none]).rules.filter
          (fun r => r.violated "abc".toList)).length :=
  C1_failure_message_count
    (PasswordChecker.mk [Rule.MinLength 8 none, Rule.RequireNumber none])
    "abc".toList _ rfl

/-- Claim C2: failure messages appear in rule-configuration order — the
error list is exactly the configured rule sequence filtered to the violated
rules, in order, mapped to their resolved messages — and each of the four
configuration calls appends exactly one rule at the end of the sequence,
preserving prior order. -/
theorem C2_order_and_append :
    (∀ (c : PasswordChecker) (p : List Char) (msgs : List String),
        c.validate p = Except.error msgs →
          msgs = (c.rules.filter (fun r => r.violated p)).map Rule.resolvedMsg)
    ∧ (∀ (c : PasswordChecker) (len : Nat) (m : Option String),
        (c.min_length len m).rules = c.rules ++ [Rule.MinLength len m])
    ∧ (∀ (c : PasswordChecker) (m : Option String),
        (c.require_upper_lower m).rules = c.rules ++ [Rule.RequireUpperLower m])
    ∧ (∀ (c : PasswordChecker) (m : Option String),
        (c.require_number m).rules = c.rules ++ [Rule.RequireNumber m])
    ∧ (∀ (c : PasswordChecker) (m : Option String),
        (c.require_special_char m).rules = c.rules ++ [Rule.RequireSpecialChar m]) := by
  refine ⟨fun c p msgs h => ((validate_error_iff c p msgs).mp h).1,
    fun c len m => rfl, fun c m => rfl, fun c m => rfl, fun c m => rfl⟩

/-- Witness for C2 at a concrete checker and input: with `RequireNumber`
configured before `MinLength(8)`, the two messages for `"abc"` come out in
that same order, and `min_length` appends at the end of an existing rule
list. -/
theorem C2_witness :
    (["Password must include at least one number.",
      "Password must be at least 8 characters long."] : List String)
      = ((PasswordChecker.mk [Rule.RequireNumber none, Rule.MinLength 8 none]).rules.filter
          (fun r => r.violated "abc".toList)).map Rule.resolvedMsg
    ∧ ((PasswordChecker.mk [Rule.RequireNumber none]).min_length 8 none).rules
        = [Rule.RequireNumber none] ++ [Rule.MinLength 8 none] :=
  ⟨C2_order_and_append.1
      (PasswordChecker.mk [Rule.RequireNumber none, Rule.MinLength 8 none])
      "abc".toList _ rfl,
    C2_order_and_append.2.1 (PasswordChecker.mk [Rule.RequireNumber none]) 8 none⟩

/-- Claim C3: a `MinLength(N)` rule is violated exactly when the input's
length (in bytes, `str::len`) is strictly less than `N`; a single-rule
checker accepts exactly when the length is at least `N`; an input of length
exactly `N` passes; and `MinLength(0)` is satisfied by every input. -/
theorem C3_min_length (N : Nat) (m : Option String) (p : List Char) :
    ((Rule.MinLength N m).violated p = true ↔ utf8Len p < N)
    ∧ ((PasswordChecker.mk [Rule.MinLength N m]).validate p = Except.ok ()
        ↔ N ≤ utf8Len p)
    ∧ (Rule.MinLength (utf8Len p) m).violated p = false
    ∧ (Rule.MinLength 0 m).violated p = false := by
  refine ⟨by simp [Rule.violated], ?_, by simp [Rule.violated],
    by simp [Rule.violated]⟩
  rw [validate_ok_iff]
  simp [PasswordChecker.errorList, Rule.violated, List.filter_cons, Nat.not_lt]

/-- Claim C4: a `RequireUpperLower` rule is violated exactly when the input
contains no ASCII uppercase letter (A-Z) or no ASCII lowercase letter (a-z),
and a violation contributes a single combined message, never two. -/
theorem C4_upper_lower (m : Option String) (p : List Char) :
    ((Rule.RequireUpperLower m).violated p = true ↔
      (¬ ∃ c ∈ p, 'A' ≤ c ∧ c ≤ 'Z') ∨ (¬ ∃ c ∈ p, 'a' ≤ c ∧ c ≤ 'z'))
    ∧ ruleErrors p (Rule.RequireUpperLower m)
        = (if (Rule.RequireUpperLower m).violated p
            then [(Rule.RequireUpperLower m).resolvedMsg] else [])
    ∧ (ruleErrors p (Rule.RequireUpperLower m)).length ≤ 1 := by
  refine ⟨?_, ruleErrors_eq_if p _, ?_⟩
  · simp [Rule.violated, List.any_eq_true, Char.isUpper, Char.isLower,
      Char.le_def]
  · rw [ruleErrors_eq_if]
    split <;> simp

/-- Claim C5: a `RequireNumber` rule is violated exactly when the input
contains no ASCII decimal digit (0-9). -/
theorem C5_digit (m : Option String) (p : List Char) :
    (Rule.RequireNumber m).violated p = true ↔
      ¬ ∃ c ∈ p, '0' ≤ c ∧ c ≤ '9' := by
  simp [Rule.violated, List.any_eq_true, Char.isDigit, Char.le_def]

/-- Claim C6: a `RequireSpecialChar` rule is violated exactly when the input
contains no character of the fixed `SPECIAL_CHARS` constant; that constant
has exactly 30 entries, is the literal list from the source, and membership
testing is exact character equality (`contains` agrees with list
membership). -/
theorem C6_special_char (m : Option String) (p : List Char) :
    ((Rule.RequireSpecialChar m).violated p = true ↔
      ¬ ∃ c ∈ p, c ∈ SPECIAL_CHARS)
    ∧ SPECIAL_CHARS.length = 30
    ∧ SPECIAL_CHARS =
        ['!', '@', '#', '$', '%', '^', '&', '*', '(', ')',
         '-', '_', '=', '+', '[', ']', '\x7b', '\x7d', '\\', '|',
         ';', ':', '\'', '"', ',', '.', '<', '>', '/', '?']
    ∧ (∀ c : Char, SPECIAL_CHARS.contains c = true ↔ c ∈ SPECIAL_CHARS) := by
  refine ⟨?_, rfl, rfl, fun c => List.elem_iff⟩
  simp [Rule.violated, List.any_eq_true, List.contains, List.elem_iff]

/-- Claim C7: whenever a rule configured with a custom message is violated,
the message appended to the failure list is the custom message verbatim, not
the default; in particular `MinLength(8, "custom text")` on an input of
length 3 yields the failure list `["custom text"]`. -/
theorem C7_custom_message :
    (∀ (r : Rule) (p : List Char) (m : String),
        r.customMsg = some m → r.violated p = true → ruleErrors p r = [m])
    ∧ (PasswordChecker.mk [Rule.MinLength 8 (some "custom text")]).validate
        "abc".toList = Except.error ["custom text"] := by
  refine ⟨?_, rfl⟩
  intro r p m hm hv
  rw [ruleErrors_eq_if, if_pos hv]
  cases r <;> simp_all [Rule.customMsg, Rule.resolvedMsg]

/-- Witness for C7 at a concrete rule and input: the violated
`MinLength(8, "custom text")` rule contributes exactly `"custom text"` for
the 3-byte input `"abc"`. -/
theorem C7_witness :
    ruleErrors "abc".toList (Rule.MinLength 8 (some "custom text"))
      = ["custom text"] :=
  C7_custom_message.1 (Rule.MinLength 8 (some "custom text")) "abc".toList
    "custom text" rfl (by decide)

/-- Counterexample to claim C8 as stated: the default message of a violated
`MinLength(8)` rule is not the literal "Password must be at least 8
characters" — the code appends " long." (src/lib.rs line 70). -/
theorem C8_counterexample :
    ruleErrors "abc".toList (Rule.MinLength 8 none)
        ≠ ["Password must be at least 8 characters"]
    ∧ ruleErrors "abc".toList (Rule.MinLength 8 none)
        = ["Password must be at least 8 characters long."] := by
  exact ⟨by decide, rfl⟩

/-- Claim C8 amended: when a `MinLength(N)` rule with no custom message is
violated, the appended message is "Password must be at least {N} characters
long." with the threshold interpolated (reference variant 2, the one the
code uses). -/
theorem C8_amended_default_message (N : Nat) (p : List Char)
    (h : utf8Len p < N) :
    ruleErrors p (Rule.MinLength N none) = [minLengthDefaultMsg N]
    ∧ minLengthDefaultMsg N
        = "Password must be at least " ++ toString N ++ " characters long." := by
  refine ⟨?_, rfl⟩
  simp [ruleErrors, h]

/-- Witness for the amended C8 at `N = 8`, input `"abc"`. -/
theorem C8_witness :
    utf8Len "abc".toList < 8
    ∧ ruleErrors "abc".toList (Rule.MinLength 8 none)
        = [minLengthDefaultMsg 8] :=
  ⟨by decide, (C8_amended_default_message 8 "abc".toList (by decide)).1⟩

/-- Claim C9: `validate` returns success exactly when no configured rule is
violated; a failure result never carries an empty message list; and a
checker with zero rules accepts every input. -/
theorem C9_success_iff_no_violation (c : PasswordChecker) (p : List Char) :
    (c.validate p = Except.ok () ↔ ∀ r ∈ c.rules, r.violated p = false)
    ∧ (∀ msgs, c.validate p = Except.error msgs → msgs ≠ [])
    ∧ PasswordChecker.new.validate p = Except.ok () := by
  refine ⟨?_, ?_, rfl⟩
  · rw [validate_ok_iff, PasswordChecker.errorList]
    simp
  · intro msgs h
    have he := (validate_error_iff c p msgs).mp h
    rw [he.1]
    exact he.2

/-- Witness for C9 at a concrete checker and input: the failure list of a
`RequireNumber` checker on `"abc"` is non-empty. -/
theorem C9_witness :
    (["Password must include at least one number."] : List String) ≠ [] :=
  (C9_success_iff_no_violation (PasswordChecker.mk [Rule.RequireNumber none])
      "abc".toList).2.1 _ rfl

/-- Claim C10: `MinLength` measures length in UTF-8 bytes (`str::len`), not
characters, while the other rules examine the character sequence; the
two-byte single-character input "é" satisfies `MinLength(2)` even though its
character count 1 is below the threshold. -/
theorem C10_bytes_not_chars :
    (∀ (N : Nat) (m : Option String) (p : List Char),
        (Rule.MinLength N m).violated p = decide (utf8Len p < N))
    ∧ utf8Len ['é'] = 2
    ∧ (['é'] : List Char).length = 1
    ∧ (PasswordChecker.mk [Rule.MinLength 2 none]).validate ['é']
        = Except.ok ()
    ∧ (∀ (m : Option String) (p : List Char),
        (Rule.RequireNumber m).violated p = !(p.any Char.isDigit)) :=
  ⟨fun _ _ _ => rfl, by decide, rfl, rfl, fun _ _ => rfl⟩

end Passcheck
